import Mathlib

/-!
# Verification of the XLS area-characterization sweep client

Shallow embedding of `xls/contrib/integrator/area_model/
area_characterization_client_main.py`: the sweep-generation and
datapoint-construction engine that asks a synthesis backend for the area of
generated circuits and accumulates a `DelayModel` record.

The synthesis backend and the circuit-description generator
(`op_module_generator.*`) are external collaborators; following the spec they
are treated as pure functions, so a backend is modelled as a function from the
descriptor a sweep point constructs to a `CompileResponse` (total for a backend
that always answers, `Except`-valued for one that may fail).
-/

set_option maxRecDepth 4000

namespace AreaCharacterization

/-- Python `range(start, stop, step)` for a positive step, as a list. -/
def pyRange (start stop step : Nat) : List Nat :=
  List.range' start ((stop - start + step - 1) / step) step

/-- Modelled from the spec: `bits.min_bit_count_unsigned` from `xls.ir.python`
(not part of the source tree under verification; only its call sites are).
The spec's testable properties pin its behaviour down as the minimum number of
bits needed to hold the argument as an unsigned number (encode sweep:
`input_bits = 5` gives result width `min_bit_count_unsigned 4 = 3`;
`input_bits = 8` gives `min_bit_count_unsigned 7 = 3`): `0` maps to `0` and
`n > 0` maps to `⌊log2 n⌋ + 1`. Written with structural recursion on a fuel
bound so that it reduces definitionally; `min_bit_count_unsigned_eq_log2`
states the closed form. -/
def log2Fuel : Nat → Nat → Nat
  | 0, _ => 0
  | fuel + 1, n => if n ≤ 1 then 0 else log2Fuel fuel (n / 2) + 1

/-- Modelled from the spec: see `log2Fuel`. -/
def min_bit_count_unsigned (n : Nat) : Nat :=
  if n = 0 then 0 else log2Fuel n n + 1

lemma log2Fuel_eq_log2 : ∀ (fuel n : Nat), n ≤ fuel → log2Fuel fuel n = Nat.log2 n
  | 0, n, h => by
    have : n = 0 := Nat.le_zero.mp h
    simp [this, log2Fuel, Nat.log2]
  | fuel + 1, n, h => by
    rw [log2Fuel]
    by_cases h1 : n ≤ 1
    · rw [if_pos h1]
      unfold Nat.log2
      have : ¬ n ≥ 2 := by omega
      simp [this]
    · rw [if_neg h1, log2Fuel_eq_log2 fuel (n / 2) (by omega)]
      conv_rhs => unfold Nat.log2
      have : n ≥ 2 := by omega
      simp [this]

/-- The closed form of the spec-modelled `min_bit_count_unsigned`: zero at
zero, `⌊log2 n⌋ + 1` for positive `n`. -/
lemma min_bit_count_unsigned_eq_log2 (n : Nat) :
    min_bit_count_unsigned n = if n = 0 then 0 else Nat.log2 n + 1 := by
  unfold min_bit_count_unsigned
  by_cases h : n = 0
  · simp [h]
  · simp [h, log2Fuel_eq_log2 n n le_rfl]

/-- `flat_bit_count_sweep_ceiling = 65` (module-level constant). -/
def flat_bit_count_sweep_ceiling : Nat := 65

/-- `operand_count_sweep_ceiling = 16` (module-level constant). -/
def operand_count_sweep_ceiling : Nat := 16

/-- `base_loop_stride = 2` (module-level constant). -/
def base_loop_stride : Nat := 2

/-- Helper for `pySplit`: split a character list at spaces, accumulating the
current word in reverse. -/
def splitSpacesAux : List Char → List Char → List String
  | [], acc => [String.mk acc.reverse]
  | c :: rest, acc =>
    if c = ' ' then String.mk acc.reverse :: splitSpacesAux rest []
    else splitSpacesAux rest (c :: acc)

/-- Python's `str.split()` with no arguments for space-separated strings:
split at spaces and drop empty fields. -/
def pySplit (s : String) : List String :=
  (splitSpacesAux s.data []).filter (fun t => t ≠ "")

/-- `FREE_OPS`: the two adjacent Python string literals concatenate with no
separator between `'...kIdentity'` and `'kLiteral...'`, exactly as in the
source, before `.split()`. -/
def FREE_OPS : List String :=
  pySplit ("kArray kArrayConcat kArrayIndex kBitSlice kConcat kIdentity" ++
    "kLiteral kParam kReverse kTuple kTupleIndex kZeroExt")

/-- The information a sweep point passes to `_build_data_point` (and through it
to `op_module_generator.generate_ir_package`): the operation descriptor. -/
structure DataPointDescr where
  op : String
  kop : String
  num_node_bits : Nat
  num_operand_bits : List Nat
  attributes : List (String × String) := []
  operand_attributes : List (String × Nat) := []
  operand_span_attributes : List (String × Nat × Nat) := []
  literal_operand : Option Nat := none
  deriving Repr, DecidableEq

/-- The part of `synthesis_pb2.CompileResponse` the client reads:
`instance_count.cell_histogram`, a map from cell-type name to count, modelled
as an association list. -/
structure CompileResponse where
  cell_histogram : List (String × Nat)
  deriving Repr, DecidableEq

/-- `delay_model_pb2.DataPoint` as populated by `_build_data_point`:
`delay` holds the measured area, `operation.op`, `operation.bit_count` and the
operand bit counts come from the descriptor. -/
structure DataPoint where
  op : String
  bit_count : Nat
  operand_bit_counts : List Nat
  delay : Nat
  deriving Repr, DecidableEq

/-- A delay-model cost factor (`delay_model_pb2.DelayFactor`). -/
inductive DelayFactorSource where
  | RESULT_BIT_COUNT
  | OPERAND_BIT_COUNT
  | OPERAND_COUNT
  deriving Repr, DecidableEq

/-- One `factors.add(...)` entry: a source plus (for `OPERAND_BIT_COUNT`) the
operand number, which defaults to 0 in the proto. -/
structure DelayFactor where
  source : DelayFactorSource
  operand_number : Nat := 0
  deriving Repr, DecidableEq

/-- An op model's estimator: either a lookup over declared factors or a fixed
cost (`entry.estimator.fixed = 0` for free ops). -/
inductive Estimator where
  | lookup (factors : List DelayFactor)
  | fixed (value : Nat)
  deriving Repr, DecidableEq

/-- One `model.op_models.add(op=kop)` entry. -/
structure OpModel where
  op : String
  estimator : Estimator
  deriving Repr, DecidableEq

/-- `delay_model_pb2.DelayModel`: the accumulated record. -/
structure DelayModel where
  op_models : List OpModel
  data_points : List DataPoint
  deriving Repr, DecidableEq

/-- `_record_area`: read the `"SB_LUT4"` key of the response's cell histogram
if present, else record zero. Returns the area stored into `result.delay`. -/
def record_area (response : CompileResponse) : Nat :=
  match response.cell_histogram.lookup "SB_LUT4" with
  | some count => count
  | none => 0

/-- `_build_data_point` for a backend that answers every request
(`stub : DataPointDescr → CompileResponse`): populate the datapoint's identity
and operand widths from the descriptor and its `delay` from `_record_area` of
the response. -/
def build_data_point (stub : DataPointDescr → CompileResponse)
    (d : DataPointDescr) : DataPoint :=
  { op := d.kop
    bit_count := d.num_node_bits
    operand_bit_counts := d.num_operand_bits
    delay := record_area (stub d) }

/-- `_build_data_point` for a backend that may fail: the synthesis exception
propagates (no retry, no fallback). -/
def build_data_pointE {ε : Type} (stub : DataPointDescr → Except ε CompileResponse)
    (d : DataPointDescr) : Except ε DataPoint :=
  match stub d with
  | .ok response =>
      .ok { op := d.kop
            bit_count := d.num_node_bits
            operand_bit_counts := d.num_operand_bits
            delay := record_area response }
  | .error e => .error e

/-- Build every descriptor in order, aborting at the first backend failure. -/
def buildAll {ε : Type} (stub : DataPointDescr → Except ε CompileResponse) :
    List DataPointDescr → Except ε (List DataPoint)
  | [] => .ok []
  | d :: rest =>
    match build_data_pointE stub d with
    | .ok p =>
      match buildAll stub rest with
      | .ok ps => .ok (p :: ps)
      | .error e => .error e
    | .error e => .error e

/-- The sequence of synthesis requests actually issued when processing the
descriptors in order with an abort-on-first-failure backend: each descriptor is
submitted at most once, and nothing after the first failure is submitted. -/
def synthCalls {ε : Type} (stub : DataPointDescr → Except ε CompileResponse) :
    List DataPointDescr → List DataPointDescr
  | [] => []
  | d :: rest =>
    match stub d with
    | .ok _ => d :: synthCalls stub rest
    | .error _ => [d]

/-! ## Sweep strategies

Each `_run_<category>_op_and_add` strategy is embedded as an op-model entry
(the cost factors it declares) together with the ordered list of descriptors it
visits — the loop body of each strategy constructs the descriptor and passes it
to `_build_data_point`, so a strategy's effect on the model is its op-model
entry plus `buildAll` over its descriptor list. -/

/-- The op-model entry of `_run_bin_op_and_add` / `_run_unary_op_and_add` /
`_run_nary_op` callers that declare a single `RESULT_BIT_COUNT` factor. -/
def resultBitCountOpModel (kop : String) : OpModel :=
  { op := kop, estimator := .lookup [{ source := .RESULT_BIT_COUNT }] }

/-- `_run_nary_op`: descriptors for `bit_count in range(1, 65, 2)`, all
`num_inputs` operands sharing the result's bit count. -/
def run_nary_op (op kop : String) (num_inputs : Nat) : List DataPointDescr :=
  (pyRange 1 flat_bit_count_sweep_ceiling base_loop_stride).map fun bit_count =>
    { op := op, kop := kop, num_node_bits := bit_count
      num_operand_bits := List.replicate num_inputs bit_count }

/-- `_run_bin_op_and_add` descriptors: `_run_nary_op` with 2 inputs. -/
def run_bin_op (op kop : String) : List DataPointDescr :=
  run_nary_op op kop 2

/-- `_run_unary_op_and_add` descriptors: `_run_nary_op` with 1 input. -/
def run_unary_op (op kop : String) : List DataPointDescr :=
  run_nary_op op kop 1

/-- `_run_nary_op_and_add` descriptors: `_run_nary_op` for each
`input_count in range(1, 16, 2)`. -/
def run_nary_op_sweep (op kop : String) : List DataPointDescr :=
  (pyRange 1 operand_count_sweep_ceiling base_loop_stride).flatMap fun input_count =>
    run_nary_op op kop input_count

/-- `_run_single_bit_result_op_and_add` descriptors: result fixed at 1 bit,
`input_bits in range(1, 65, 2)`, `num_inputs` equal-width operands. -/
def run_single_bit_result_op (op kop : String) (num_inputs : Nat) :
    List DataPointDescr :=
  (pyRange 1 flat_bit_count_sweep_ceiling base_loop_stride).map fun input_bits =>
    { op := op, kop := kop, num_node_bits := 1
      num_operand_bits := List.replicate num_inputs input_bits }

/-- The loop body of `_run_select_op_and_add` at one `(num_cases, bit_count)`
point: selector width `min_bit_count_unsigned (num_cases - 1)`; if
`2 ^ select_bits == num_cases` the operands are the selector followed by
`num_cases` cases, else one extra default operand is appended and a
`('default', num_cases + 1)` operand attribute is added. The
`('cases', 1, num_cases)` span attribute is always present. -/
def selectPoint (op kop : String) (num_cases bit_count : Nat) : DataPointDescr :=
  let select_bits := min_bit_count_unsigned (num_cases - 1)
  if 2 ^ select_bits = num_cases then
    { op := op, kop := kop, num_node_bits := bit_count
      num_operand_bits := select_bits :: List.replicate num_cases bit_count
      operand_span_attributes := [("cases", 1, num_cases)] }
  else
    { op := op, kop := kop, num_node_bits := bit_count
      num_operand_bits := select_bits :: List.replicate (num_cases + 1) bit_count
      operand_span_attributes := [("cases", 1, num_cases)]
      operand_attributes := [("default", num_cases + 1)] }

/-- `_run_select_op_and_add` descriptors:
`num_cases in range(2, 16, 2)`, `bit_count in range(1, 65, 2)`. -/
def run_select_op (op kop : String) : List DataPointDescr :=
  (pyRange 2 operand_count_sweep_ceiling base_loop_stride).flatMap fun num_cases =>
    (pyRange 1 flat_bit_count_sweep_ceiling base_loop_stride).map fun bit_count =>
      selectPoint op kop num_cases bit_count

/-- `_run_one_hot_select_op_and_add` descriptors: selector width is
`num_cases` itself (one-hot). -/
def run_one_hot_select_op (op kop : String) : List DataPointDescr :=
  (pyRange 2 operand_count_sweep_ceiling base_loop_stride).flatMap fun num_cases =>
    (pyRange 1 flat_bit_count_sweep_ceiling base_loop_stride).map fun bit_count =>
      { op := op, kop := kop, num_node_bits := bit_count
        num_operand_bits := num_cases :: List.replicate num_cases bit_count
        operand_span_attributes := [("cases", 1, num_cases)] }

/-- The loop body of `_run_encode_op_and_add` at one `input_bits` point:
result width `min_bit_count_unsigned (input_bits - 1)`. -/
def encodePoint (op kop : String) (input_bits : Nat) : DataPointDescr :=
  { op := op, kop := kop
    num_node_bits := min_bit_count_unsigned (input_bits - 1)
    num_operand_bits := [input_bits] }

/-- `_run_encode_op_and_add` descriptors: `input_bits in range(2, 65, 2)`. -/
def run_encode_op (op kop : String) : List DataPointDescr :=
  (pyRange 2 flat_bit_count_sweep_ceiling base_loop_stride).map fun input_bits =>
    encodePoint op kop input_bits

/-- `_run_decode_op_and_add` descriptors: `node_bits in range(2, 65, 2)`,
input width `min_bit_count_unsigned (node_bits - 1)`, a `width` attribute. -/
def run_decode_op (op kop : String) : List DataPointDescr :=
  (pyRange 2 flat_bit_count_sweep_ceiling base_loop_stride).map fun node_bits =>
    { op := op, kop := kop, num_node_bits := node_bits
      num_operand_bits := [min_bit_count_unsigned (node_bits - 1)]
      attributes := [("width", toString node_bits)] }

/-- The inner loop body of `_run_dynamic_bit_slice_op_and_add`: data operand of
`input_bits`, start operand of `start_bits`, result `node_bits`, a `width`
attribute equal to `node_bits`. -/
def dynamicBitSlicePoint (op kop : String) (start_bits input_bits node_bits : Nat) :
    DataPointDescr :=
  { op := op, kop := kop, num_node_bits := node_bits
    num_operand_bits := [input_bits, start_bits]
    attributes := [("width", toString node_bits)] }

/-- The `start_bits` range of `_run_dynamic_bit_slice_op_and_add`:
`range(2, min_bit_count_unsigned(flat_bit_count_sweep_ceiling - 1),
base_loop_stride ** 2)`. -/
def dynamicBitSliceStartBitsRange : List Nat :=
  pyRange 2 (min_bit_count_unsigned (flat_bit_count_sweep_ceiling - 1))
    (base_loop_stride ^ 2)

/-- `_run_dynamic_bit_slice_op_and_add` descriptors: for each `start_bits` in
its range, `input_bits = 2 ** start_bits` and
`node_bits in range(1, input_bits, 4)`. -/
def run_dynamic_bit_slice_op (op kop : String) : List DataPointDescr :=
  dynamicBitSliceStartBitsRange.flatMap fun start_bits =>
    let input_bits := 2 ^ start_bits
    (pyRange 1 input_bits (base_loop_stride ^ 2)).map fun node_bits =>
      dynamicBitSlicePoint op kop start_bits input_bits node_bits

/-- `_run_one_hot_op_and_add` descriptors: result `bit_count + 1`, one operand
of `bit_count`, an `lsb_prio` attribute. -/
def run_one_hot_op (op kop : String) : List DataPointDescr :=
  (pyRange 1 flat_bit_count_sweep_ceiling base_loop_stride).map fun bit_count =>
    { op := op, kop := kop, num_node_bits := bit_count + 1
      num_operand_bits := [bit_count]
      attributes := [("lsb_prio", "true")] }

/-- `_run_sign_ext_op_and_add` descriptors:
`node_count in range(2, 65, 16)`, `input_count in range(1, node_count - 1, 16)`,
a `new_bit_count` attribute equal to `node_count`. -/
def run_sign_ext_op (op kop : String) : List DataPointDescr :=
  (pyRange 2 flat_bit_count_sweep_ceiling (base_loop_stride * 2 ^ 2)).flatMap
    fun node_count =>
      (pyRange 1 (node_count - 1) (base_loop_stride * 2 ^ 2)).map fun input_count =>
        { op := op, kop := kop, num_node_bits := node_count
          num_operand_bits := [input_count]
          attributes := [("new_bit_count", toString node_count)] }

/-- `_run_mul_op_and_add` descriptors: full nested cross product of
`mplier_count`, `mcand_count` and `node_count`, each in
`range(2, 65, base_loop_stride * 2 ** 3) = range(2, 65, 16)`, with the two
operands being the multiplier and the multiplicand. -/
def run_mul_op (op kop : String) : List DataPointDescr :=
  (pyRange 2 flat_bit_count_sweep_ceiling (base_loop_stride * 2 ^ 3)).flatMap
    fun mplier_count =>
      (pyRange 2 flat_bit_count_sweep_ceiling (base_loop_stride * 2 ^ 3)).flatMap
        fun mcand_count =>
          (pyRange 2 flat_bit_count_sweep_ceiling (base_loop_stride * 2 ^ 3)).map
            fun node_count =>
              { op := op, kop := kop, num_node_bits := node_count
                num_operand_bits := [mplier_count, mcand_count] }

/-- The op-model entry of `_run_mul_op_and_add`: result bit count plus the bit
counts of operands 0 and 1. -/
def mulOpModel (kop : String) : OpModel :=
  { op := kop
    estimator := .lookup
      [{ source := .RESULT_BIT_COUNT },
       { source := .OPERAND_BIT_COUNT, operand_number := 0 },
       { source := .OPERAND_BIT_COUNT, operand_number := 1 }] }

/-! ## `run_characterization`

In the source all strategies except the two multiply categories are wrapped in
a no-op triple-quoted string, so one run visits the `smul` sweep points, then
the `umul` sweep points, then appends one fixed-0 op-model entry per `FREE_OPS`
element, and finally prints the two schema comment lines followed by the
record. -/

/-- Every sweep point one run of `run_characterization` is configured to
visit, in visit order. -/
def configuredSweepDescrs : List DataPointDescr :=
  run_mul_op "smul" "kSMul" ++ run_mul_op "umul" "kUMul"

/-- The op-model entries of one run: the two multiply entries followed by a
fixed-cost-0 entry for every `FREE_OPS` element, in list order. -/
def configuredOpModels : List OpModel :=
  mulOpModel "kSMul" :: mulOpModel "kUMul" ::
    FREE_OPS.map fun free_op => { op := free_op, estimator := .fixed 0 }

/-- `run_characterization` against a backend that may fail: the model is
complete only if every configured sweep point synthesized successfully; the
first failure propagates. -/
def run_characterization {ε : Type}
    (stub : DataPointDescr → Except ε CompileResponse) : Except ε DelayModel :=
  match buildAll stub configuredSweepDescrs with
  | .ok points => .ok { op_models := configuredOpModels, data_points := points }
  | .error e => .error e

/-- The two schema comment lines printed before the record. -/
def schemaCommentLines : List String :=
  ["# proto-file: xls/delay_model/delay_model.proto",
   "# proto-message: xls.delay_model.DelayModel"]

/-- What one run emits on stdout as its ModelRecord output: the schema comment
lines and the record when every sweep point completed, nothing when the
backend failed anywhere (the uncaught exception aborts the run before the
final prints). -/
def emittedRecord {ε : Type}
    (stub : DataPointDescr → Except ε CompileResponse) :
    Option (List String × DelayModel) :=
  match run_characterization stub with
  | .ok model => some (schemaCommentLines, model)
  | .error _ => none

/-- All descriptors any of the file's sweep strategies construct, with the op
names `run_characterization` passes them (the strategies inside the disabled
block included), concatenated. -/
def allStrategyDescrs : List DataPointDescr :=
  run_bin_op "add" "kAdd" ++ run_bin_op "sdiv" "kSDiv" ++
  run_bin_op "smod" "kSMod" ++ run_bin_op "shll" "kShll" ++
  run_bin_op "shrl" "kShrl" ++ run_bin_op "shra" "kShra" ++
  run_bin_op "sub" "kSub" ++ run_bin_op "udiv" "kUDiv" ++
  run_bin_op "umod" "kUMod" ++
  run_unary_op "neg" "kNeg" ++ run_unary_op "not" "kNot" ++
  run_nary_op_sweep "and" "kAnd" ++ run_nary_op_sweep "nand" "kNAnd" ++
  run_nary_op_sweep "nor" "kNor" ++ run_nary_op_sweep "or" "kOr" ++
  run_nary_op_sweep "xor" "kXor" ++
  run_single_bit_result_op "and_reduce" "kAndReduce" 1 ++
  run_single_bit_result_op "or_reduce" "kOrReduce" 1 ++
  run_single_bit_result_op "xor_reduce" "kXorReduce" 1 ++
  run_single_bit_result_op "eq" "kEq" 2 ++
  run_single_bit_result_op "ne" "kNe" 2 ++
  run_single_bit_result_op "sge" "kSGe" 2 ++
  run_single_bit_result_op "sgt" "kSGt" 2 ++
  run_single_bit_result_op "sle" "kSLe" 2 ++
  run_single_bit_result_op "slt" "kSLt" 2 ++
  run_single_bit_result_op "uge" "kUGe" 2 ++
  run_single_bit_result_op "ugt" "kUGt" 2 ++
  run_single_bit_result_op "ule" "kULe" 2 ++
  run_single_bit_result_op "ult" "kULt" 2 ++
  run_select_op "sel" "kSel" ++
  run_one_hot_select_op "one_hot_sel" "kOneHotSel" ++
  run_encode_op "encode" "kEncode" ++
  run_decode_op "decode" "kDecode" ++
  run_dynamic_bit_slice_op "dynamic_bit_slice" "kDynamicBitSlice" ++
  run_one_hot_op "one_hot" "kOneHot" ++
  run_sign_ext_op "sign_ext" "kSignExt" ++
  run_mul_op "smul" "kSMul" ++ run_mul_op "umul" "kUMul"

/-- A well-formed descriptor: every operand-reference attribute index, every
operand-span attribute range, and the literal-operand index (when present) lie
within the operand list. -/
def DataPointDescr.wellFormed (d : DataPointDescr) : Bool :=
  d.operand_attributes.all (fun a => a.2 < d.num_operand_bits.length) &&
  d.operand_span_attributes.all
    (fun a => a.2.1 + a.2.2 ≤ d.num_operand_bits.length) &&
  (match d.literal_operand with
   | none => true
   | some i => i < d.num_operand_bits.length)

/-- The `start_bits` range the spec's dynamic-slice row describes, written from
the spec's words for comparison with `dynamicBitSliceStartBitsRange`:
`[2, ceil(log2(64))) step 4`. -/
def claimedDynamicStartBitsRange : List Nat :=
  pyRange 2 (Nat.clog 2 64) (base_loop_stride ^ 2)

/-! ## Supporting lemmas -/

/-- For `n ≥ 1`, the selector/result width `min_bit_count_unsigned (n - 1)`
the sweeps compute is exactly `⌈log2 n⌉`. -/
lemma min_bit_count_unsigned_sub_one (n : Nat) (h : 1 ≤ n) :
    min_bit_count_unsigned (n - 1) = Nat.clog 2 n := by
  rw [min_bit_count_unsigned_eq_log2]
  rcases Nat.lt_or_ge n 2 with h2 | h2
  · have : n = 1 := by omega
    simp [this, Nat.clog_one_right]
  · have hne : n - 1 ≠ 0 := by omega
    rw [if_neg hne, Nat.log2_eq_log_two]
    have hle : Nat.clog 2 n ≤ Nat.log 2 (n - 1) + 1 := by
      rw [← Nat.le_pow_iff_clog_le (by norm_num)]
      have := Nat.lt_pow_succ_log_self (b := 2) (by norm_num) (n - 1)
      omega
    have hge : Nat.log 2 (n - 1) + 1 ≤ Nat.clog 2 n := by
      have hlt : 2 ^ Nat.log 2 (n - 1) < n := by
        have := Nat.pow_log_le_self 2 hne
        omega
      have := (Nat.pow_lt_iff_lt_clog (b := 2) (by norm_num)).mp hlt
      omega
    omega

/-- For `n ≥ 1`, the power-of-two test `2 ^ ⌈log2 n⌉ = n` of the select sweep
holds exactly when `n` is an exact power of two. -/
lemma pow_clog_eq_iff (n : Nat) (h : 1 ≤ n) :
    2 ^ Nat.clog 2 n = n ↔ ∃ k, n = 2 ^ k := by
  constructor
  · intro he
    exact ⟨Nat.clog 2 n, he.symm⟩
  · rintro ⟨k, rfl⟩
    rw [Nat.clog_pow 2 k (by norm_num)]

/-- Against a backend that answers every request, `_build_data_point` never
fails and produces the total-stub datapoint. -/
lemma build_data_pointE_okStub {ε : Type} (f : DataPointDescr → CompileResponse)
    (d : DataPointDescr) :
    build_data_pointE (fun x => (Except.ok (f x) : Except ε CompileResponse)) d =
      .ok (build_data_point f d) := rfl

/-- Against a backend that answers every request, the sweep builds one
datapoint per descriptor, in order. -/
lemma buildAll_okStub {ε : Type} (f : DataPointDescr → CompileResponse) :
    ∀ l : List DataPointDescr,
      buildAll (fun x => (Except.ok (f x) : Except ε CompileResponse)) l =
        .ok (l.map (build_data_point f))
  | [] => rfl
  | d :: rest => by
    simp [buildAll, build_data_pointE_okStub, buildAll_okStub f rest]

/-- `buildAll` fails exactly when the backend fails on some descriptor of the
list. -/
lemma buildAll_error_iff {ε : Type} (stub : DataPointDescr → Except ε CompileResponse) :
    ∀ l : List DataPointDescr,
      (∃ e, buildAll stub l = .error e) ↔ ∃ d ∈ l, ∃ e, stub d = .error e
  | [] => by simp [buildAll]
  | d :: rest => by
    rw [buildAll]
    unfold build_data_pointE
    cases hd : stub d with
    | ok r =>
      cases hb : buildAll stub rest with
      | ok ps =>
        have hrest : ¬ ∃ x ∈ rest, ∃ e, stub x = .error e := by
          rw [← buildAll_error_iff stub rest]
          simp [hb]
        simp only [hb]
        constructor
        · rintro ⟨e, he⟩
          exact absurd he (by simp)
        · rintro ⟨x, hx, e, he⟩
          rcases List.mem_cons.mp hx with rfl | hx'
          · rw [hd] at he
            exact absurd he (by simp)
          · exact absurd ⟨x, hx', e, he⟩ hrest
      | error e =>
        have hrest : ∃ x ∈ rest, ∃ e, stub x = .error e := by
          rw [← buildAll_error_iff stub rest]
          exact ⟨e, hb⟩
        simp only [hb]
        constructor
        · rintro ⟨e', _⟩
          rcases hrest with ⟨x, hx, e'', he''⟩
          exact ⟨x, List.mem_cons_of_mem d hx, e'', he''⟩
        · rintro _
          exact ⟨e, rfl⟩
    | error e =>
      constructor
      · rintro _
        exact ⟨d, List.mem_cons_self d rest, e, hd⟩
      · rintro _
        exact ⟨e, rfl⟩

/-- The sequence of synthesis requests is the longest successful prefix of the
descriptor list followed by the first failing descriptor, if any: every
request is issued at most once and the run aborts at the first failure. -/
lemma synthCalls_eq_takeWhile {ε : Type}
    (stub : DataPointDescr → Except ε CompileResponse) :
    ∀ l : List DataPointDescr,
      synthCalls stub l =
        l.takeWhile (fun d => (stub d).isOk) ++
          (l.dropWhile (fun d => (stub d).isOk)).take 1
  | [] => rfl
  | d :: rest => by
    rw [synthCalls, List.takeWhile_cons, List.dropWhile_cons]
    cases hd : stub d with
    | ok r => simp [Except.isOk, Except.toBool, hd, synthCalls_eq_takeWhile stub rest]
    | error e => simp [Except.isOk, Except.toBool, hd]

/-- Against a backend that answers every request, every configured descriptor
is submitted exactly once, in enumeration order. -/
lemma synthCalls_okStub {ε : Type} (f : DataPointDescr → CompileResponse) :
    ∀ l : List DataPointDescr,
      synthCalls (fun d => (Except.ok (f d) : Except ε CompileResponse)) l = l
  | [] => rfl
  | d :: rest => by simp [synthCalls, synthCalls_okStub f rest]

end AreaCharacterization

namespace AreaCharacterization

/-! ## Claims -/

/-- C2: each multiply sweep (`smul` and `umul`) enumerates multiplier bits,
multiplicand bits and result bits independently as a full nested cross
product, each over exactly `{2, 18, 34, 50}` (the range `[2, 65)` with stride
16), producing exactly 64 datapoints per multiply category, each with exactly
two operands carrying the swept multiplier and multiplicand widths and the
swept result width. -/
theorem C2_mul_sweep_full_cross_product :
    pyRange 2 flat_bit_count_sweep_ceiling (base_loop_stride * 2 ^ 3) =
      [2, 18, 34, 50] ∧
    (run_mul_op "smul" "kSMul").length = 64 ∧
    (run_mul_op "umul" "kUMul").length = 64 ∧
    (∀ a ∈ [2, 18, 34, 50], ∀ b ∈ [2, 18, 34, 50], ∀ c ∈ [2, 18, 34, 50],
      ((run_mul_op "smul" "kSMul").filter
        (fun d => d.num_operand_bits == [a, b] && d.num_node_bits == c)).length = 1 ∧
      ((run_mul_op "umul" "kUMul").filter
        (fun d => d.num_operand_bits == [a, b] && d.num_node_bits == c)).length = 1) ∧
    (run_mul_op "smul" "kSMul" ++ run_mul_op "umul" "kUMul").all
      (fun d => d.num_operand_bits.length == 2 &&
        d.num_operand_bits.all ([2, 18, 34, 50].contains ·) &&
        [2, 18, 34, 50].contains d.num_node_bits) = true := by
  refine ⟨by decide, by decide, by decide, by decide, by decide⟩

/-- Witness for C2 at the sweep point multiplier 2, multiplicand 18,
result 34. -/
theorem C2_witness :
    (2 ∈ [2, 18, 34, 50]) ∧ (18 ∈ [2, 18, 34, 50]) ∧ (34 ∈ [2, 18, 34, 50]) ∧
    ((run_mul_op "smul" "kSMul").filter
      (fun d => d.num_operand_bits == [2, 18] && d.num_node_bits == 34)).length = 1 :=
  ⟨by decide, by decide, by decide,
    (C2_mul_sweep_full_cross_product.2.2.2.1 2 (by decide) 18 (by decide) 34
      (by decide)).1⟩

/-- C3: for every synthesis response, the area recorded in the resulting
datapoint equals the count under the `"SB_LUT4"` key of the response's cell
histogram when that key is present, and zero when it is absent; absence is not
an error (the datapoint is still produced). -/
theorem C3_histogram_area {ε : Type} (resp : CompileResponse) (n : Nat)
    (stub : DataPointDescr → Except ε CompileResponse) (d : DataPointDescr) :
    (resp.cell_histogram.lookup "SB_LUT4" = some n → record_area resp = n) ∧
    (resp.cell_histogram.lookup "SB_LUT4" = none → record_area resp = 0) ∧
    (stub d = .ok resp → build_data_pointE stub d =
      .ok { op := d.kop, bit_count := d.num_node_bits,
            operand_bit_counts := d.num_operand_bits,
            delay := record_area resp }) := by
  refine ⟨?_, ?_, ?_⟩
  · intro h
    simp [record_area, h]
  · intro h
    simp [record_area, h]
  · intro h
    simp [build_data_pointE, h]

/-- Witness for C3: a histogram holding `SB_LUT4 ↦ 7` yields area 7, an empty
histogram yields area 0. -/
theorem C3_witness :
    (CompileResponse.mk [("SB_LUT4", 7)]).cell_histogram.lookup "SB_LUT4" =
      some 7 ∧
    record_area (CompileResponse.mk [("SB_LUT4", 7)]) = 7 ∧
    (CompileResponse.mk []).cell_histogram.lookup "SB_LUT4" = none ∧
    record_area (CompileResponse.mk []) = 0 := by
  refine ⟨by decide, ?_, by decide, ?_⟩
  · exact (C3_histogram_area (CompileResponse.mk [("SB_LUT4", 7)]) 7
      (fun _ => (Except.error () : Except Unit CompileResponse))
      { op := "x", kop := "kX", num_node_bits := 1, num_operand_bits := [1] }).1
      (by decide)
  · exact (C3_histogram_area (CompileResponse.mk []) 0
      (fun _ => (Except.error () : Except Unit CompileResponse))
      { op := "x", kop := "kX", num_node_bits := 1, num_operand_bits := [1] }).2.1
      (by decide)

/-- C10: the select and one-hot-select sweeps only ever probe the even case
counts `{2, 4, 6, 8, 10, 12, 14}`; within the select sweep the no-default
power-of-two branch fires exactly for `num_cases ∈ {2, 4, 8}` and the
default-operand branch exactly for `num_cases ∈ {6, 10, 12, 14}`; odd case
counts such as 5 are never enumerated. -/
theorem C10_even_case_counts :
    pyRange 2 operand_count_sweep_ceiling base_loop_stride =
      [2, 4, 6, 8, 10, 12, 14] ∧
    (5 ∉ pyRange 2 operand_count_sweep_ceiling base_loop_stride) ∧
    (pyRange 2 operand_count_sweep_ceiling base_loop_stride).filter
      (fun nc => 2 ^ min_bit_count_unsigned (nc - 1) == nc) = [2, 4, 8] ∧
    (pyRange 2 operand_count_sweep_ceiling base_loop_stride).filter
      (fun nc => !(2 ^ min_bit_count_unsigned (nc - 1) == nc)) =
      [6, 10, 12, 14] ∧
    (run_select_op "sel" "kSel").all (fun d =>
      match d.operand_span_attributes with
      | [(_, _, nc)] => [2, 4, 6, 8, 10, 12, 14].contains nc
      | _ => false) = true ∧
    (run_one_hot_select_op "one_hot_sel" "kOneHotSel").all (fun d =>
      [2, 4, 6, 8, 10, 12, 14].contains (d.num_operand_bits.headD 0)) = true ∧
    (∀ nc ∈ pyRange 2 operand_count_sweep_ceiling base_loop_stride,
      ∀ bc ∈ pyRange 1 flat_bit_count_sweep_ceiling base_loop_stride,
        ((selectPoint "sel" "kSel" nc bc).operand_attributes = [] ↔
          nc ∈ [2, 4, 8]) ∧
        ((selectPoint "sel" "kSel" nc bc).operand_attributes =
          [("default", nc + 1)] ↔ nc ∈ [6, 10, 12, 14])) := by
  refine ⟨by decide, by decide, by decide, by decide, by decide, by decide,
    by decide⟩

/-- Witness for C10 at `num_cases = 6`, `bit_count = 1`: the default-operand
branch fires. -/
theorem C10_witness :
    (6 ∈ pyRange 2 operand_count_sweep_ceiling base_loop_stride) ∧
    (1 ∈ pyRange 1 flat_bit_count_sweep_ceiling base_loop_stride) ∧
    (selectPoint "sel" "kSel" 6 1).operand_attributes = [("default", 7)] :=
  ⟨by decide, by decide,
    (C10_even_case_counts.2.2.2.2.2.2 6 (by decide) 1 (by decide)).2.mpr
      (by decide)⟩

end AreaCharacterization

namespace AreaCharacterization

/-- C5: in the select sweep the selector operand (operand 0) has width
`⌈log2 num_cases⌉`; when `num_cases` is an exact power of two the descriptor's
operands are the selector followed by exactly `num_cases` case operands with
no default operand, and otherwise exactly one extra default operand is
appended after the case span, with a `('default', num_cases + 1)` reference;
the sweep enumerates exactly the configured `num_cases × bit_count` grid over
these per-point descriptors. -/
theorem C5_select_descriptor_shape (op kop : String) (nc bc : Nat) (h : 1 ≤ nc) :
    (selectPoint op kop nc bc).num_operand_bits.head? = some (Nat.clog 2 nc) ∧
    ((∃ k, nc = 2 ^ k) →
      selectPoint op kop nc bc =
        { op := op, kop := kop, num_node_bits := bc,
          num_operand_bits := Nat.clog 2 nc :: List.replicate nc bc,
          operand_span_attributes := [("cases", 1, nc)] }) ∧
    ((¬ ∃ k, nc = 2 ^ k) →
      selectPoint op kop nc bc =
        { op := op, kop := kop, num_node_bits := bc,
          num_operand_bits := Nat.clog 2 nc :: List.replicate (nc + 1) bc,
          operand_span_attributes := [("cases", 1, nc)],
          operand_attributes := [("default", nc + 1)] }) ∧
    run_select_op op kop =
      (pyRange 2 operand_count_sweep_ceiling base_loop_stride).flatMap fun n =>
        (pyRange 1 flat_bit_count_sweep_ceiling base_loop_stride).map fun b =>
          selectPoint op kop n b := by
  have hw := min_bit_count_unsigned_sub_one nc h
  have hiff := pow_clog_eq_iff nc h
  refine ⟨?_, ?_, ?_, rfl⟩
  · simp only [selectPoint, hw]
    by_cases hp : 2 ^ Nat.clog 2 nc = nc <;> simp [hp]
  · intro hk
    have hp : 2 ^ Nat.clog 2 nc = nc := hiff.mpr hk
    simp only [selectPoint, hw]
    rw [if_pos hp]
  · intro hk
    have hp : ¬ 2 ^ Nat.clog 2 nc = nc := fun hc => hk (hiff.mp hc)
    simp only [selectPoint, hw]
    rw [if_neg hp]

/-- Witness for C5 at `num_cases` 4 (power of two: selector width 2, no
default operand) and 5 (selector width 3, one default operand after the
5-case span). -/
theorem C5_witness :
    (1 ≤ 4) ∧ (1 ≤ 5) ∧
    (selectPoint "sel" "kSel" 4 7).num_operand_bits.head? = some 2 ∧
    (selectPoint "sel" "kSel" 4 7).operand_attributes = [] ∧
    (selectPoint "sel" "kSel" 5 7).num_operand_bits.head? = some 3 ∧
    (selectPoint "sel" "kSel" 5 7).num_operand_bits.length = 7 ∧
    (selectPoint "sel" "kSel" 5 7).operand_attributes = [("default", 6)] := by
  have h4 := C5_select_descriptor_shape "sel" "kSel" 4 7 (by norm_num)
  have h5 := C5_select_descriptor_shape "sel" "kSel" 5 7 (by norm_num)
  have e4 := h4.2.1 ⟨2, by norm_num⟩
  have e5 := h5.2.2.1 (by
    rintro ⟨k, hk⟩
    rcases Nat.lt_or_ge k 3 with hlt | hge
    · interval_cases k <;> omega
    · have : (8 : Nat) ≤ 2 ^ k := by
        calc (8 : Nat) = 2 ^ 3 := by norm_num
        _ ≤ 2 ^ k := Nat.pow_le_pow_right (by norm_num) hge
      omega)
  refine ⟨by norm_num, by norm_num, ?_, ?_, ?_, ?_, ?_⟩
  · rw [e4]
    have : Nat.clog 2 4 = 2 := by
      rw [show (4 : Nat) = 2 ^ 2 by norm_num, Nat.clog_pow 2 2 (by norm_num)]
    simp [this]
  · rw [e4]
  · rw [e5]
    have : Nat.clog 2 5 = 3 := by
      have := min_bit_count_unsigned_sub_one 5 (by norm_num)
      simpa using this.symm
    simp [this]
  · rw [e5]
    simp
  · rw [e5]

/-- C6 counterexample: the encode sweep's first enumerated point is
`input_bits = 2`, whose datapoint has result width 1, while the claimed
formula `⌈log2 (input_bits - 1)⌉` gives 0 there. -/
theorem C6_counterexample :
    (run_encode_op "encode" "kEncode").head? =
      some (encodePoint "encode" "kEncode" 2) ∧
    (encodePoint "encode" "kEncode" 2).num_operand_bits = [2] ∧
    (encodePoint "encode" "kEncode" 2).num_node_bits = 1 ∧
    Nat.clog 2 (2 - 1) = 0 ∧
    (encodePoint "encode" "kEncode" 2).num_node_bits ≠ Nat.clog 2 (2 - 1) := by
  have h1 : Nat.clog 2 (2 - 1) = 0 := by norm_num [Nat.clog_one_right]
  refine ⟨by decide, by decide, by decide, h1, ?_⟩
  rw [h1]
  decide

/-- C6 (amended): for every `input_bits ≥ 1` the encode datapoint has one
operand of width `input_bits` and result width
`min_bit_count_unsigned (input_bits - 1) = ⌈log2 input_bits⌉`; in particular
`input_bits = 8` yields result width 3, and the sweep maps the per-point
builder over `range(2, 65, 2)`. -/
theorem C6_encode_result_width (op kop : String) (input_bits : Nat)
    (h : 1 ≤ input_bits) :
    (encodePoint op kop input_bits).num_node_bits = Nat.clog 2 input_bits ∧
    (encodePoint op kop input_bits).num_operand_bits = [input_bits] ∧
    run_encode_op op kop =
      (pyRange 2 flat_bit_count_sweep_ceiling base_loop_stride).map
        (encodePoint op kop) ∧
    (encodePoint op kop 8).num_node_bits = 3 := by
  refine ⟨?_, rfl, rfl, rfl⟩
  exact min_bit_count_unsigned_sub_one input_bits h

/-- Witness for C6 (amended) at `input_bits = 8`: result width 3. -/
theorem C6_witness :
    (1 ≤ 8) ∧ (encodePoint "encode" "kEncode" 8).num_node_bits = 3 :=
  ⟨by norm_num, (C6_encode_result_width "encode" "kEncode" 8 (by norm_num)).2.2.2⟩

/-- C7 counterexample: the dynamic-slice sweep's `start_bits` range is
`range(2, min_bit_count_unsigned(64), 4) = [2, 6]`, not the claimed
`range(2, ceil(log2 64), 4) = [2]`; the sweep's second descriptor has start
operand width 6. -/
theorem C7_counterexample :
    dynamicBitSliceStartBitsRange = [2, 6] ∧
    claimedDynamicStartBitsRange = [2] ∧
    dynamicBitSliceStartBitsRange ≠ claimedDynamicStartBitsRange ∧
    (run_dynamic_bit_slice_op "dynamic_bit_slice" "kDynamicBitSlice").get? 1 =
      some (dynamicBitSlicePoint "dynamic_bit_slice" "kDynamicBitSlice" 6 64 1) := by
  have h64 : Nat.clog 2 64 = 6 := by
    rw [show (64 : Nat) = 2 ^ 6 by norm_num, Nat.clog_pow 2 6 (by norm_num)]
  have hc : claimedDynamicStartBitsRange = [2] := by
    rw [claimedDynamicStartBitsRange, h64]
    decide
  refine ⟨by decide, hc, ?_, by decide⟩
  rw [hc]
  decide

/-- C7 (amended): the dynamic-slice sweep enumerates `start_bits` over
`range(2, min_bit_count_unsigned(64), 4) = [2, 6]` (bound 7, not
`ceil(log2 64) = 6`); for each `start_bits` the data width is
`2 ^ start_bits`, `node_bits` ranges over `range(1, 2 ^ start_bits, 4)`, and
each point has the two operands `[data, start]`, result `node_bits` and a
`width` attribute equal to `node_bits`, for 17 points in all. -/
theorem C7_dynamic_slice_sweep (op kop : String) (sb nb : Nat) :
    dynamicBitSliceStartBitsRange = [2, 6] ∧
    min_bit_count_unsigned (flat_bit_count_sweep_ceiling - 1) = 7 ∧
    run_dynamic_bit_slice_op op kop =
      dynamicBitSliceStartBitsRange.flatMap (fun s =>
        (pyRange 1 (2 ^ s) (base_loop_stride ^ 2)).map fun n =>
          dynamicBitSlicePoint op kop s (2 ^ s) n) ∧
    dynamicBitSlicePoint op kop sb (2 ^ sb) nb =
      { op := op, kop := kop, num_node_bits := nb,
        num_operand_bits := [2 ^ sb, sb],
        attributes := [("width", toString nb)] } ∧
    (run_dynamic_bit_slice_op "dynamic_bit_slice" "kDynamicBitSlice").length = 17 := by
  exact ⟨by decide, by decide, rfl, rfl, by decide⟩

/-- C1: in the source the two adjacent string literals of `FREE_OPS`
concatenate without a separator, so the list holds the merged name
`"kIdentitykLiteral"` and neither `"kIdentity"` nor `"kLiteral"`; the emitted
record has exactly one fixed-cost-0 entry per actual `FREE_OPS` element (and
no datapoints for any of them), but no entry at all for the intended
`kIdentity` and `kLiteral` operations. -/
theorem C1_free_ops_merged_by_missing_space :
    FREE_OPS = ["kArray", "kArrayConcat", "kArrayIndex", "kBitSlice", "kConcat",
      "kIdentitykLiteral", "kParam", "kReverse", "kTuple", "kTupleIndex",
      "kZeroExt"] ∧
    "kIdentity" ∉ FREE_OPS ∧ "kLiteral" ∉ FREE_OPS ∧
    "kIdentitykLiteral" ∈ FREE_OPS ∧
    configuredOpModels.filter (fun m => m.op == "kIdentitykLiteral") =
      [{ op := "kIdentitykLiteral", estimator := .fixed 0 }] ∧
    configuredOpModels.filter (fun m => m.op == "kIdentity") = [] ∧
    configuredOpModels.filter (fun m => m.op == "kLiteral") = [] ∧
    FREE_OPS.all (fun f => decide (configuredOpModels.filter
      (fun m => m.op == f) = [{ op := f, estimator := .fixed 0 }])) = true ∧
    (run_mul_op "smul" "kSMul" ++ run_mul_op "umul" "kUMul").all
      (fun d => !(FREE_OPS.contains d.kop)) = true := by
  refine ⟨by decide, by decide, by decide, by decide, by decide, by decide,
    by decide, by decide, by decide⟩

/-- C4: the run submits the configured sweep points in order, stops at the
first backend failure with no retry, emits nothing when any point fails, and
emits the two schema comment lines with the one complete record exactly when
every configured point has completed. -/
theorem C4_first_failure_aborts {ε : Type}
    (stub : DataPointDescr → Except ε CompileResponse)
    (f : DataPointDescr → CompileResponse) :
    schemaCommentLines.length = 2 ∧
    synthCalls stub configuredSweepDescrs =
      configuredSweepDescrs.takeWhile (fun d => (stub d).isOk) ++
        (configuredSweepDescrs.dropWhile (fun d => (stub d).isOk)).take 1 ∧
    ((∃ d ∈ configuredSweepDescrs, ∃ e, stub d = .error e) →
      emittedRecord stub = none) ∧
    emittedRecord (fun x => (Except.ok (f x) : Except ε CompileResponse)) =
      some (schemaCommentLines,
        { op_models := configuredOpModels,
          data_points := configuredSweepDescrs.map (build_data_point f) }) := by
  refine ⟨rfl, synthCalls_eq_takeWhile stub _, ?_, ?_⟩
  · intro hex
    rcases (buildAll_error_iff stub configuredSweepDescrs).mpr hex with ⟨e, he⟩
    simp [emittedRecord, run_characterization, he]
  · simp [emittedRecord, run_characterization, buildAll_okStub]

/-- Witness for C4: a backend failing on every request fails on the first
sweep point, and the run emits nothing. -/
theorem C4_witness :
    (∃ d ∈ configuredSweepDescrs, ∃ e : Unit,
      (fun _ : DataPointDescr => (Except.error () : Except Unit CompileResponse)) d =
        .error e) ∧
    emittedRecord
      (fun _ : DataPointDescr => (Except.error () : Except Unit CompileResponse)) =
      none := by
  have hmem : (⟨"smul", "kSMul", 2, [2, 2], [], [], [], none⟩ : DataPointDescr) ∈
      configuredSweepDescrs := by
    decide
  refine ⟨⟨_, hmem, (), rfl⟩, ?_⟩
  exact (C4_first_failure_aborts
    (fun _ : DataPointDescr => (Except.error () : Except Unit CompileResponse))
    (fun _ => CompileResponse.mk [])).2.2.1 ⟨_, hmem, (), rfl⟩

set_option maxRecDepth 100000 in
/-- C8: every descriptor any sweep strategy constructs has its
operand-reference indices, operand-span ranges and (absent here) literal
operand index within the operand list; in particular every select point is
well-formed, and on the default branch the `default` reference `num_cases + 1`
and the `cases` span `[1, num_cases]` lie inside the operand list of length
`num_cases + 2`. -/
theorem C8_attribute_indices_valid :
    allStrategyDescrs.all DataPointDescr.wellFormed = true ∧
    (∀ op kop nc bc, (selectPoint op kop nc bc).wellFormed = true) ∧
    (∀ op kop nc bc, ¬ 2 ^ min_bit_count_unsigned (nc - 1) = nc →
      (selectPoint op kop nc bc).num_operand_bits.length = nc + 2 ∧
      (selectPoint op kop nc bc).operand_attributes = [("default", nc + 1)] ∧
      (selectPoint op kop nc bc).operand_span_attributes = [("cases", 1, nc)]) ∧
    allStrategyDescrs.all (fun d => d.literal_operand == none) = true := by
  refine ⟨by decide, ?_, ?_, by decide⟩
  · intro op kop nc bc
    by_cases hp : 2 ^ min_bit_count_unsigned (nc - 1) = nc
    · simp [selectPoint, DataPointDescr.wellFormed, hp]
      omega
    · simp [selectPoint, DataPointDescr.wellFormed, hp]
      omega
  · intro op kop nc bc hp
    refine ⟨?_, ?_, ?_⟩ <;> simp [selectPoint, hp]

/-- Witness for C8 at the select point `num_cases = 6`, `bit_count = 1`:
operand list length 8, default reference index 7, cases span `(1, 6)`. -/
theorem C8_witness :
    (¬ 2 ^ min_bit_count_unsigned (6 - 1) = 6) ∧
    (selectPoint "sel" "kSel" 6 1).num_operand_bits.length = 8 ∧
    (selectPoint "sel" "kSel" 6 1).operand_attributes = [("default", 7)] ∧
    (selectPoint "sel" "kSel" 6 1).operand_span_attributes = [("cases", 1, 6)] :=
  ⟨by decide, (C8_attribute_indices_valid.2.2.1 "sel" "kSel" 6 1 (by decide))⟩

/-- C9: against any backend that answers deterministically, the sequence of
descriptors a sweep visits is exactly its configured descriptor list — the
same for any two backends, hence byte-identical across repeated runs — and
the datapoint sequence is the per-descriptor build mapped over that list. -/
theorem C9_descriptor_sequence_deterministic
    (f g : DataPointDescr → CompileResponse) :
    (∀ l : List DataPointDescr,
      synthCalls (fun d => (Except.ok (f d) : Except Unit CompileResponse)) l = l) ∧
    synthCalls (fun d => (Except.ok (f d) : Except Unit CompileResponse))
        configuredSweepDescrs =
      synthCalls (fun d => (Except.ok (g d) : Except Unit CompileResponse))
        configuredSweepDescrs ∧
    buildAll (fun d => (Except.ok (f d) : Except Unit CompileResponse))
        configuredSweepDescrs =
      .ok (configuredSweepDescrs.map (build_data_point f)) := by
  refine ⟨synthCalls_okStub f, ?_, buildAll_okStub f _⟩
  rw [synthCalls_okStub f, synthCalls_okStub g]

end AreaCharacterization
